import Mathlib

/-!
Verification development for the factory discrete-event simulation in
factorySim/simutd.py.

The embedding is shallow: each simulation operation is translated into a pure
Lean function on an explicit state record, and the cooperative scheduling of
simpy processes is modelled by a step relation whose constructors are the
atomic code segments a process executes between two suspension points
(a timed wait or a resource acquisition).  Python floats holding rate
parameters and money are modelled as exact rationals; Python ints as ℤ.
Truncating conversion int(x), applied by the code only to nonnegative
quantities, is modelled by the rational floor.
-/

namespace FactorySim

/-- The adaptation strategies of simutd.py (class AdaptationStrategy,
lines 111-138), in Python enum declaration order, which is the order used
for index-addressed commands via list(AdaptationStrategy). -/
inductive AdaptationStrategy where
  | PREVENTIVE_MAINTENANCE
  | FLEXIBLE_WORKFORCE
  | JUST_IN_TIME_REPLENISHMENT
  | SUPPLIER_DIVERSIFICATION
  | OVERTIME_POLICY
  | QUALITY_MONITORING
  | KPI_MONITORING
  | MODULAR_REPAIR_KITS
  | OUTSOURCING
  | LEAN_MANUFACTURING
  | PEAK_LOAD_OPTIMIZATION
  | INVENTORY_LIQUIDATION
  | PURCHASE_CNC_MACHINE
  | SELL_CNC_MACHINE
  | HIRE_WORKERS
  | REDUCE_WORKFORCE
  | EMERGENCY_MATERIALS
  | UPGRADE_ASSEMBLY
  | INSTALL_BACKUP_GENERATOR
  | EXPEDITE_MAINTENANCE
  | BULK_ORDER_MATERIALS
  | CANCEL_PENDING_ORDERS
  | REALLOCATE_WORKERS
  | SCHEDULE_OVERTIME
deriving DecidableEq, Repr

open AdaptationStrategy

/-- list(AdaptationStrategy): enum members in declaration order (simutd.py
lines 111-138). -/
def strategyList : List AdaptationStrategy :=
  [PREVENTIVE_MAINTENANCE, FLEXIBLE_WORKFORCE, JUST_IN_TIME_REPLENISHMENT,
   SUPPLIER_DIVERSIFICATION, OVERTIME_POLICY, QUALITY_MONITORING,
   KPI_MONITORING, MODULAR_REPAIR_KITS, OUTSOURCING, LEAN_MANUFACTURING,
   PEAK_LOAD_OPTIMIZATION, INVENTORY_LIQUIDATION, PURCHASE_CNC_MACHINE,
   SELL_CNC_MACHINE, HIRE_WORKERS, REDUCE_WORKFORCE, EMERGENCY_MATERIALS,
   UPGRADE_ASSEMBLY, INSTALL_BACKUP_GENERATOR, EXPEDITE_MAINTENANCE,
   BULK_ORDER_MATERIALS, CANCEL_PENDING_ORDERS, REALLOCATE_WORKERS,
   SCHEDULE_OVERTIME]

/-- ONE_TIME_STRATEGIES (simutd.py lines 141-154): membership test of the
set of one-time (one-shot) strategies. -/
def isOneTime : AdaptationStrategy → Bool
  | PURCHASE_CNC_MACHINE => true
  | SELL_CNC_MACHINE => true
  | HIRE_WORKERS => true
  | REDUCE_WORKFORCE => true
  | EMERGENCY_MATERIALS => true
  | UPGRADE_ASSEMBLY => true
  | INSTALL_BACKUP_GENERATOR => true
  | EXPEDITE_MAINTENANCE => true
  | BULK_ORDER_MATERIALS => true
  | CANCEL_PENDING_ORDERS => true
  | REALLOCATE_WORKERS => true
  | SCHEDULE_OVERTIME => true
  | _ => false

/-- StrategyCosts.IMPLEMENTATION (simutd.py lines 159-187). -/
def implementationCost : AdaptationStrategy → ℚ
  | PREVENTIVE_MAINTENANCE => 25000
  | FLEXIBLE_WORKFORCE => 18000
  | JUST_IN_TIME_REPLENISHMENT => 20000
  | SUPPLIER_DIVERSIFICATION => 35000
  | OVERTIME_POLICY => 5000
  | QUALITY_MONITORING => 42000
  | KPI_MONITORING => 25000
  | MODULAR_REPAIR_KITS => 18000
  | OUTSOURCING => 30000
  | LEAN_MANUFACTURING => 38000
  | PEAK_LOAD_OPTIMIZATION => 15000
  | INVENTORY_LIQUIDATION => 8000
  | PURCHASE_CNC_MACHINE => 150000
  | SELL_CNC_MACHINE => 5000
  | HIRE_WORKERS => 15000
  | REDUCE_WORKFORCE => 30000
  | EMERGENCY_MATERIALS => 40000
  | UPGRADE_ASSEMBLY => 75000
  | INSTALL_BACKUP_GENERATOR => 55000
  | EXPEDITE_MAINTENANCE => 25000
  | BULK_ORDER_MATERIALS => 80000
  | CANCEL_PENDING_ORDERS => 20000
  | REALLOCATE_WORKERS => 5000
  | SCHEDULE_OVERTIME => 18000

/-- StrategyCosts.WEEKLY (simutd.py lines 190-217). -/
def weeklyCost : AdaptationStrategy → ℚ
  | PREVENTIVE_MAINTENANCE => 625
  | FLEXIBLE_WORKFORCE => 300
  | JUST_IN_TIME_REPLENISHMENT => 300
  | SUPPLIER_DIVERSIFICATION => 450
  | OVERTIME_POLICY => 0
  | QUALITY_MONITORING => 550
  | KPI_MONITORING => 400
  | MODULAR_REPAIR_KITS => 250
  | OUTSOURCING => 250
  | LEAN_MANUFACTURING => 450
  | PEAK_LOAD_OPTIMIZATION => 350
  | INVENTORY_LIQUIDATION => 200
  | _ => 0

/-- StrategyDurations.DURATION (simutd.py lines 222-248), in simulated
minutes. -/
def defaultDuration : AdaptationStrategy → ℚ
  | PREVENTIVE_MAINTENANCE => 14 * 24 * 60
  | FLEXIBLE_WORKFORCE => 21 * 24 * 60
  | JUST_IN_TIME_REPLENISHMENT => 30 * 24 * 60
  | SUPPLIER_DIVERSIFICATION => 45 * 24 * 60
  | OVERTIME_POLICY => 5 * 24 * 60
  | QUALITY_MONITORING => 30 * 24 * 60
  | KPI_MONITORING => 30 * 24 * 60
  | MODULAR_REPAIR_KITS => 60 * 24 * 60
  | OUTSOURCING => 10 * 24 * 60
  | LEAN_MANUFACTURING => 60 * 24 * 60
  | PEAK_LOAD_OPTIMIZATION => 14 * 24 * 60
  | INVENTORY_LIQUIDATION => 7 * 24 * 60
  | _ => 0

/-- The module-level global rate parameters of simutd.py (lines 44-77)
that strategies and disruptions mutate. -/
structure RateParams where
  cncFailureChance : ℚ
  suddenOrderSpikeChance : ℚ
  supplyChainIssueChance : ℚ
  workerAbsenceChance : ℚ
  qualityIssueChance : ℚ
  powerOutageChance : ℚ
  orderCancellationChance : ℚ
  cncProcessingTime : ℚ
  assemblyTime : ℚ
deriving DecidableEq, Repr

/-- A simpy.Resource as seen from the factory: capacity and the number of
granted requests (users) of the CURRENT resource object, plus the holders
of previously replaced resource objects.  The one-shot resize strategies
of execute_one_time_strategy replace the simpy.Resource with a brand-new
object of the new capacity (e.g. simutd.py lines 1308-1310): holders of the
old object are never revoked, but the new object starts with zero users. -/
structure PoolModel where
  capacity : ℤ
  inUse : ℤ
  oldHolders : ℤ
deriving DecidableEq, Repr

/-- Number of processes currently holding a slot of this pool, whether on
the current resource object or on a replaced one. -/
def totalHolders (p : PoolModel) : ℤ := p.inUse + p.oldHolders

/-- The grant condition of simpy.Resource.request on the current resource
object: a request succeeds exactly when users < capacity. -/
def canAcquire (p : PoolModel) : Bool := decide (p.inUse < p.capacity)

/-- Replacement of a simpy.Resource by a fresh one of the given capacity,
as performed by PURCHASE_CNC_MACHINE / SELL_CNC_MACHINE / HIRE_WORKERS /
REDUCE_WORKFORCE / UPGRADE_ASSEMBLY in execute_one_time_strategy. -/
def resizeReplace (newCapacity : ℤ) (p : PoolModel) : PoolModel :=
  { capacity := newCapacity, inUse := 0, oldHolders := p.oldHolders + p.inUse }

/-- The mutable state of MQTTValueFactory (simutd.py lines 250-374) plus the
module-level globals the factory reads and writes.  MQTT plumbing, sensor
jitter, metric histories and log buffers are outside the embedded state: no
claim refers to them and no embedded operation reads them. -/
structure FactoryState where
  params : RateParams
  cncMachines : PoolModel
  assemblyStations : PoolModel
  qcStations : PoolModel
  workers : PoolModel
  numCncMachines : ℤ
  numAssemblyStations : ℤ
  numWorkers : ℤ
  operationalCncMachines : ℤ
  availableWorkers : ℤ
  rawMaterials : ℤ
  partsInventory : ℤ
  finishedProducts : ℤ
  backlog : ℤ
  totalOrders : ℤ
  fulfilledOrders : ℤ
  cancelledOrders : ℤ
  revenue : ℚ
  costs : ℚ
  inventoryHoldingCosts : ℚ
  energyCosts : ℚ
  liquidationRevenue : ℚ
  strategyWeeklyCosts : ℚ
  currentOrderRate : ℚ
  supplyChainDisrupted : Bool
  hasQualityIssue : Bool
  powerOutage : Bool
  orderCancellationActive : Bool
  paused : Bool
  defectRate : ℚ
  defectsFound : ℤ
  totalInspected : ℤ
  falsePositives : ℤ
  falseNegatives : ℤ
  dailyProduction : ℤ
  activeStrategies : List AdaptationStrategy
  implementationDates : List (AdaptationStrategy × ℚ)
  expirationTimes : List (AdaptationStrategy × ℚ)
  strategyChanges : List (ℚ × AdaptationStrategy × Bool)
  activeCncRequests : ℤ
  activeWorkerRequests : ℤ
  activeQcRequests : ℤ

/-- PARTS_PER_PRODUCT (simutd.py line 47). -/
def PARTS_PER_PRODUCT : ℤ := 3

/-- The state built by MQTTValueFactory.__init__ (simutd.py lines 250-374)
from the module-level constants of lines 36-77. -/
def initialState : FactoryState where
  params :=
    { cncFailureChance := 15/100
      suddenOrderSpikeChance := 5/100
      supplyChainIssueChance := 8/100
      workerAbsenceChance := 8/100
      qualityIssueChance := 7/100
      powerOutageChance := 10/100
      orderCancellationChance := 10/100
      cncProcessingTime := 45
      assemblyTime := 30 }
  cncMachines := { capacity := 5, inUse := 0, oldHolders := 0 }
  assemblyStations := { capacity := 4, inUse := 0, oldHolders := 0 }
  qcStations := { capacity := 3, inUse := 0, oldHolders := 0 }
  workers := { capacity := 12, inUse := 0, oldHolders := 0 }
  numCncMachines := 5
  numAssemblyStations := 4
  numWorkers := 12
  operationalCncMachines := 5
  availableWorkers := 12
  rawMaterials := 500
  partsInventory := 80
  finishedProducts := 0
  backlog := 0
  totalOrders := 0
  fulfilledOrders := 0
  cancelledOrders := 0
  revenue := 0
  costs := 0
  inventoryHoldingCosts := 0
  energyCosts := 0
  liquidationRevenue := 0
  strategyWeeklyCosts := 0
  currentOrderRate := 25
  supplyChainDisrupted := false
  hasQualityIssue := false
  powerOutage := false
  orderCancellationActive := false
  paused := false
  defectRate := 2/100
  defectsFound := 0
  totalInspected := 0
  falsePositives := 0
  falseNegatives := 0
  dailyProduction := 0
  activeStrategies := []
  implementationDates := []
  expirationTimes := []
  strategyChanges := []
  activeCncRequests := 0
  activeWorkerRequests := 0
  activeQcRequests := 0

/-- Truncating conversion int(x) of Python, as applied by the code to the
nonnegative quantities int(backlog * rate), int(finished_products * rate)
and int(daily_orders * factor); on nonnegative rationals truncation equals
the floor. -/
def pyInt (q : ℚ) : ℤ := ⌊q⌋

/-- Upsert into a Python-dict-modelling association list. -/
def alistInsert (strategy : AdaptationStrategy) (v : ℚ)
    (l : List (AdaptationStrategy × ℚ)) : List (AdaptationStrategy × ℚ) :=
  (strategy, v) :: l.filter (fun p => decide (p.1 ≠ strategy))

/-- Deletion from a Python-dict-modelling association list (del d[k]). -/
def alistRemove (strategy : AdaptationStrategy)
    (l : List (AdaptationStrategy × ℚ)) : List (AdaptationStrategy × ℚ) :=
  l.filter (fun p => decide (p.1 ≠ strategy))

/-- Removal from the Python set self.adaptation_strategies. -/
def removeStrategy (strategy : AdaptationStrategy)
    (l : List AdaptationStrategy) : List AdaptationStrategy :=
  l.filter (fun x => decide (x ≠ strategy))

/-- apply_strategy_effects (simutd.py lines 1053-1148).  The duration used
for the expiration entry is passed by the caller because modify_strategy
temporarily overrides StrategyDurations.DURATION with a custom duration and
restores it right after the call (lines 1256-1270); logging is dropped. -/
def applyStrategyEffects (now dur : ℚ) (strategy : AdaptationStrategy)
    (activate : Bool) (s : FactoryState) : FactoryState :=
  let s := { s with strategyChanges := (now, strategy, activate) :: s.strategyChanges }
  let s :=
    if activate then
      { s with
        costs := s.costs + implementationCost strategy
        implementationDates := alistInsert strategy now s.implementationDates
        expirationTimes := alistInsert strategy (now + dur) s.expirationTimes
        strategyWeeklyCosts := s.strategyWeeklyCosts + weeklyCost strategy }
    else
      { s with
        strategyWeeklyCosts := s.strategyWeeklyCosts - weeklyCost strategy
        expirationTimes := alistRemove strategy s.expirationTimes }
  match strategy with
  | PREVENTIVE_MAINTENANCE =>
      let factor : ℚ := if activate then 2/10 else 5
      { s with params.cncFailureChance := s.params.cncFailureChance * factor }
  | JUST_IN_TIME_REPLENISHMENT =>
      if activate then
        { s with rawMaterials := s.rawMaterials + 250,
                 partsInventory := s.partsInventory + 40 }
      else s
  | FLEXIBLE_WORKFORCE =>
      let factor : ℚ := if activate then 7/10 else 1 / (7/10)
      { s with params.assemblyTime := s.params.assemblyTime * factor,
               params.cncProcessingTime := s.params.cncProcessingTime * factor }
  | SUPPLIER_DIVERSIFICATION =>
      let factor : ℚ := if activate then 25/100 else 4
      { s with params.supplyChainIssueChance := s.params.supplyChainIssueChance * factor }
  | QUALITY_MONITORING =>
      let factor : ℚ := if activate then 2/10 else 5
      let s := { s with params.qualityIssueChance := s.params.qualityIssueChance * factor }
      if activate then { s with defectRate := s.defectRate * (4/10) }
      else { s with defectRate := s.defectRate / (4/10) }
  | PEAK_LOAD_OPTIMIZATION =>
      if activate then
        { s with params.powerOutageChance := s.params.powerOutageChance * (6/10) }
      else
        { s with params.powerOutageChance := s.params.powerOutageChance / (6/10) }
  | INVENTORY_LIQUIDATION => s
  | KPI_MONITORING =>
      if activate then
        { s with params.cncFailureChance := s.params.cncFailureChance * (85/100),
                 params.qualityIssueChance := s.params.qualityIssueChance * (85/100) }
      else
        { s with params.cncFailureChance := s.params.cncFailureChance / (85/100),
                 params.qualityIssueChance := s.params.qualityIssueChance / (85/100) }
  | _ => s

/-- execute_one_time_strategy (simutd.py lines 1294-1563): the immediate
effects of a one-shot strategy.  Effects the code schedules for later
simulated times (the bulk-order delivery batches, the timed restoration of
POWER_OUTAGE_CHANCE / CNC_FAILURE_CHANCE / processing times) are separate
steps of the scheduler, not part of this call; sensor-array bookkeeping is
outside the embedded state. -/
def executeOneTimeStrategy (strategy : AdaptationStrategy)
    (s : FactoryState) : FactoryState :=
  match strategy with
  | PURCHASE_CNC_MACHINE =>
      let n := s.numCncMachines + 1
      { s with numCncMachines := n,
               operationalCncMachines := s.operationalCncMachines + 1,
               cncMachines := resizeReplace n s.cncMachines }
  | SELL_CNC_MACHINE =>
      if 1 < s.numCncMachines then
        let n := s.numCncMachines - 1
        { s with numCncMachines := n,
                 operationalCncMachines :=
                   if 0 < s.operationalCncMachines then
                     s.operationalCncMachines - 1
                   else s.operationalCncMachines,
                 cncMachines := resizeReplace n s.cncMachines,
                 revenue := s.revenue + 75000 }
      else s
  | HIRE_WORKERS =>
      let n := s.numWorkers + 3
      { s with numWorkers := n,
               availableWorkers := s.availableWorkers + 3,
               workers := resizeReplace n s.workers }
  | REDUCE_WORKFORCE =>
      if 3 < s.numWorkers then
        let layoff := min 3 (s.numWorkers - 3)
        let n := s.numWorkers - layoff
        { s with numWorkers := n,
                 availableWorkers := min s.availableWorkers n,
                 workers := resizeReplace n s.workers }
      else s
  | EMERGENCY_MATERIALS =>
      { s with rawMaterials := s.rawMaterials + 1000 }
  | UPGRADE_ASSEMBLY =>
      let n := s.numAssemblyStations + 1
      { s with params.assemblyTime := s.params.assemblyTime * (7/10),
               numAssemblyStations := n,
               assemblyStations := resizeReplace n s.assemblyStations }
  | INSTALL_BACKUP_GENERATOR =>
      { s with powerOutage := false,
               params.powerOutageChance := s.params.powerOutageChance * (1/10) }
  | EXPEDITE_MAINTENANCE =>
      if s.operationalCncMachines < s.numCncMachines then
        { s with operationalCncMachines := s.numCncMachines }
      else
        { s with params.cncFailureChance := s.params.cncFailureChance * (3/10) }
  | BULK_ORDER_MATERIALS => s
  | CANCEL_PENDING_ORDERS =>
      if 10 < s.backlog then
        let ordersToCancel := pyInt ((s.backlog : ℚ) * (4/10))
        { s with backlog := s.backlog - ordersToCancel,
                 cancelledOrders := s.cancelledOrders + ordersToCancel,
                 revenue := s.revenue + (ordersToCancel : ℚ) * 1500 * (15/100) }
      else s
  | REALLOCATE_WORKERS =>
      { s with params.assemblyTime := s.params.assemblyTime * (8/10),
               params.cncProcessingTime := s.params.cncProcessingTime * (8/10) }
  | SCHEDULE_OVERTIME =>
      { s with params.assemblyTime := s.params.assemblyTime * (67/100),
               params.cncProcessingTime := s.params.cncProcessingTime * (67/100) }
  | _ => s

/-- The return value of modify_strategy, one constructor per distinct
return string of simutd.py lines 1204-1292. -/
inductive StrategyResult where
  | oneTimeExecuted
  | activated
  | alreadyActive
  | deactivated
  | noChange
  | invalidIndex
deriving DecidableEq, Repr

/-- modify_strategy (simutd.py lines 1204-1292).  A custom duration, when
given and positive, is used in place of the default duration for the
expiration entry (the code swaps it into StrategyDurations.DURATION around
the apply_strategy_effects call and restores the table afterwards). -/
def modifyStrategy (now : ℚ) (strategyIdx : ℕ) (activate : Bool)
    (customDuration : Option ℚ) (s : FactoryState) :
    FactoryState × StrategyResult :=
  match strategyList[strategyIdx]? with
  | none => (s, StrategyResult.invalidIndex)
  | some strategy =>
    if activate then
      if isOneTime strategy then
        let s := { s with costs := s.costs + implementationCost strategy }
        let s := executeOneTimeStrategy strategy s
        let s := { s with strategyChanges := (now, strategy, true) :: s.strategyChanges }
        (s, StrategyResult.oneTimeExecuted)
      else if strategy ∉ s.activeStrategies then
        let s := { s with activeStrategies := strategy :: s.activeStrategies }
        let dur :=
          match customDuration with
          | some d => if 0 < d then d else defaultDuration strategy
          | none => defaultDuration strategy
        (applyStrategyEffects now dur strategy true s, StrategyResult.activated)
      else (s, StrategyResult.alreadyActive)
    else
      if isOneTime strategy = false ∧ strategy ∈ s.activeStrategies then
        let s := { s with activeStrategies := removeStrategy strategy s.activeStrategies }
        (applyStrategyEffects now 0 strategy false s, StrategyResult.deactivated)
      else (s, StrategyResult.noChange)

/-- Deactivation of one expired strategy inside check_strategy_expiration
(simutd.py lines 1161-1172): remove from the active set, then revert the
effects. -/
def deactivateExpired (now : ℚ) (s : FactoryState)
    (strategy : AdaptationStrategy) : FactoryState :=
  applyStrategyEffects now 0 strategy false
    { s with activeStrategies := removeStrategy strategy s.activeStrategies }

/-- check_strategy_expiration (simutd.py lines 1150-1172): every persistent
strategy whose expiration time has passed and which is still active is
force-deactivated through the same revert path as an explicit deactivate. -/
def checkStrategyExpiration (now : ℚ) (s : FactoryState) : FactoryState :=
  let expired :=
    (s.expirationTimes.filter
      (fun p => decide (p.2 ≤ now) && decide (p.1 ∈ s.activeStrategies))).map Prod.fst
  expired.foldl (deactivateExpired now) s

/-- process_backlog (simutd.py lines 2106-2125): ship
min(finished_products, backlog) units, move them to fulfilled orders and
recognise 1500 of revenue per unit. -/
def processBacklog (s : FactoryState) : FactoryState :=
  let availableProducts := min s.finishedProducts s.backlog
  if 0 < availableProducts then
    { s with finishedProducts := s.finishedProducts - availableProducts,
             backlog := s.backlog - availableProducts,
             fulfilledOrders := s.fulfilledOrders + availableProducts,
             dailyProduction := s.dailyProduction + availableProducts,
             revenue := s.revenue + (availableProducts : ℚ) * 1500 }
  else s

/-- The daily-order bookkeeping of generate_orders (simutd.py lines
2086-2097) before process_backlog is invoked: reset the daily production
counter and add the day's orders to total_orders and backlog.  dailyOrders
stands for int(int(current_order_rate) * uniform(0.6, 1.4)). -/
def recordDailyOrders (dailyOrders : ℤ) (s : FactoryState) : FactoryState :=
  { s with dailyProduction := 0,
           totalOrders := s.totalOrders + dailyOrders,
           backlog := s.backlog + dailyOrders }

/-- One iteration of generate_orders (simutd.py lines 2082-2100): record the
new daily batch of orders, then process the backlog. -/
def generateDailyOrders (dailyOrders : ℤ) (s : FactoryState) : FactoryState :=
  processBacklog (recordDailyOrders dailyOrders s)

/-- The materials debit of produce_parts (simutd.py lines 2197-2208): the
batch is capped at 15 and at the available stock, and the subtraction is
only reached when the recomputed batch is positive. -/
def produceDebit (s : FactoryState) : FactoryState :=
  let batchSize := min 15 s.rawMaterials
  { s with rawMaterials := s.rawMaterials - batchSize }

/-- The completion segment of produce_parts (simutd.py lines 2220-2228):
credit the in-flight batch to the parts inventory and accrue the 30-per-part
processing cost.  The batch size is carried across the processing wait by
the producer process, so it appears here as a parameter. -/
def produceCredit (batchSize : ℤ) (s : FactoryState) : FactoryState :=
  { s with partsInventory := s.partsInventory + batchSize,
           costs := s.costs + (batchSize : ℚ) * 30 }

/-- The parts debit of assemble_products (simutd.py lines 2258-2263): batch
capped at 5 products and at parts_inventory // PARTS_PER_PRODUCT; the
assembly cost of 50 per product accrues for the batch (line 2285). -/
def assembleDebit (s : FactoryState) : FactoryState :=
  let maxProducts := s.partsInventory / PARTS_PER_PRODUCT
  let batchSize := min 5 maxProducts
  { s with partsInventory := s.partsInventory - batchSize * PARTS_PER_PRODUCT,
           costs := s.costs + (batchSize : ℚ) * 50 }

/-- The inspection bookkeeping of product_to_qc (simutd.py lines 2316-2348)
before process_backlog is invoked, with the two Bernoulli draws abstracted
into their outcomes: whether the unit is defective and whether the
inspection flagged it.  A unit that is not flagged is credited to finished
goods. -/
def qcRecordInspection (isDefective defectDetected : Bool)
    (s : FactoryState) : FactoryState :=
  let s := { s with totalInspected := s.totalInspected + 1 }
  let s :=
    if isDefective then
      if defectDetected then { s with defectsFound := s.defectsFound + 1 }
      else { s with falseNegatives := s.falseNegatives + 1 }
    else
      if defectDetected then { s with falsePositives := s.falsePositives + 1 }
      else s
  if defectDetected = false then
    { s with finishedProducts := s.finishedProducts + 1 }
  else s

/-- The tail of product_to_qc (simutd.py lines 2316-2354): record the
inspection outcome, then process the backlog immediately. -/
def qcInspectionComplete (isDefective defectDetected : Bool)
    (s : FactoryState) : FactoryState :=
  processBacklog (qcRecordInspection isDefective defectDetected s)

/-- The entry segment of quality_control_issue (simutd.py lines 1986-2019):
if no quality issue is active, scrap int(finished_products * rate) units
(rate 0.15 when QUALITY_MONITORING is active, 0.4 otherwise), set the
defect rate to that rate and accrue 300 of rework cost per scrapped unit. -/
def qualityIssueStart (s : FactoryState) : FactoryState :=
  if s.hasQualityIssue then s
  else
    let defectiveRate : ℚ :=
      if QUALITY_MONITORING ∈ s.activeStrategies then 15/100 else 4/10
    let defectiveProducts := pyInt ((s.finishedProducts : ℚ) * defectiveRate)
    { s with hasQualityIssue := true,
             finishedProducts := s.finishedProducts - defectiveProducts,
             defectRate := defectiveRate,
             defectsFound := s.defectsFound + defectiveProducts,
             costs := s.costs + (defectiveProducts : ℚ) * 300 }

/-- The exit segment of quality_control_issue (simutd.py lines 2024-2026):
clear the flag and reset the defect rate to the 2 percent baseline. -/
def qualityIssueEnd (s : FactoryState) : FactoryState :=
  { s with hasQualityIssue := false, defectRate := 2/100 }

/-- The entry segment of order_cancellation (simutd.py lines 1715-1760):
guarded by the per-kind active flag and a nonempty backlog; cancels
int(backlog * rate) orders, reduced by a further factor 0.6 when
INVENTORY_LIQUIDATION is active, and credits a 10 percent cancellation fee
of the 1500 product price per cancelled order.  rate stands for the draw
uniform(0.2, 0.5). -/
def orderCancellationStart (cancellationRate : ℚ) (s : FactoryState) :
    FactoryState :=
  if s.orderCancellationActive = false ∧ 0 < s.backlog then
    let c := pyInt ((s.backlog : ℚ) * cancellationRate)
    let ordersToCancel :=
      if INVENTORY_LIQUIDATION ∈ s.activeStrategies then pyInt ((c : ℚ) * (6/10))
      else c
    { s with orderCancellationActive := true,
             backlog := s.backlog - ordersToCancel,
             cancelledOrders := s.cancelledOrders + ordersToCancel,
             revenue := s.revenue + (ordersToCancel : ℚ) * 1500 * (1/10) }
  else s

/-- The exit segment of order_cancellation (simutd.py line 1768). -/
def orderCancellationEnd (s : FactoryState) : FactoryState :=
  { s with orderCancellationActive := false }

/-- liquidate_inventory (simutd.py lines 1173-1195): when the liquidation
strategy is active, sell the finished goods exceeding backlog plus a
safety stock of 10, at 65 percent of the 1500 product price. -/
def liquidateInventory (s : FactoryState) : FactoryState :=
  if INVENTORY_LIQUIDATION ∈ s.activeStrategies then
    let excessFinishedProducts := max 0 (s.finishedProducts - s.backlog - 10)
    if 0 < excessFinishedProducts then
      { s with finishedProducts := s.finishedProducts - excessFinishedProducts,
               liquidationRevenue := s.liquidationRevenue +
                 (excessFinishedProducts : ℚ) * (1500 * (65/100)) }
    else s
  else s

/-- The guard of produce_parts (simutd.py lines 2171-2180): the delay in
simulated minutes before the producer re-polls when it finds no eligible
work, or none when production can start. -/
def producerRepollDelay (s : FactoryState) : Option ℤ :=
  if s.powerOutage then some 10
  else if s.rawMaterials ≤ 0 ∨ s.operationalCncMachines ≤ 0 ∨
          s.availableWorkers ≤ 0 then some 10
  else none

/-- The guard of assemble_products (simutd.py lines 2232-2241): the delay in
simulated minutes before the assembler re-polls when it finds no eligible
work, or none when assembly can start. -/
def assemblerRepollDelay (s : FactoryState) : Option ℤ :=
  if s.powerOutage then some 10
  else if s.partsInventory < PARTS_PER_PRODUCT ∨ s.availableWorkers ≤ 0 then
    some 60
  else none

/-- The worker-oversubscription re-poll delay of assemble_products
(simutd.py lines 2246-2250). -/
def assemblerOversubscriptionDelay : ℤ := 60

/-- Agreement of two states on every quantity named by the ledger/pool
invariant: the seven inventory-ledger counters, the capacity and user count
of the four current resource-pool objects, and the machine/worker/station
totals that determine replacement capacities. -/
def PoolEq (p q : PoolModel) : Prop :=
  q.capacity = p.capacity ∧ q.inUse = p.inUse

/-- ClaimedEq s t holds when t differs from s only in fields outside the
ledger/pool invariant (rate parameters, financial accumulators, flags,
trackers, strategy bookkeeping, sensor state). -/
def ClaimedEq (s t : FactoryState) : Prop :=
  t.rawMaterials = s.rawMaterials ∧ t.partsInventory = s.partsInventory ∧
  t.finishedProducts = s.finishedProducts ∧ t.backlog = s.backlog ∧
  t.totalOrders = s.totalOrders ∧ t.fulfilledOrders = s.fulfilledOrders ∧
  t.cancelledOrders = s.cancelledOrders ∧
  PoolEq s.cncMachines t.cncMachines ∧ PoolEq s.workers t.workers ∧
  PoolEq s.assemblyStations t.assemblyStations ∧
  PoolEq s.qcStations t.qcStations ∧
  t.numCncMachines = s.numCncMachines ∧ t.numWorkers = s.numWorkers ∧
  t.numAssemblyStations = s.numAssemblyStations

/-- One atomic segment of a simulation process: everything a process does
between two suspension points (a simpy timeout or a resource request).
Quantities the code draws at random, or carries across a wait inside a
process frame, appear as parameters constrained to the support the code
gives them.  The frame constructor collects every remaining code segment:
all of those only touch fields outside the ledger/pool invariant (rate
parameters, money, flags, utilisation trackers, metric histories). -/
inductive Step : FactoryState → FactoryState → Prop where
  | acquireCnc {s : FactoryState}
      (h : s.cncMachines.inUse < s.cncMachines.capacity) :
      Step s { s with cncMachines.inUse := s.cncMachines.inUse + 1 }
  | releaseCnc {s : FactoryState} (h : 0 < s.cncMachines.inUse) :
      Step s { s with cncMachines.inUse := s.cncMachines.inUse - 1 }
  | acquireWorker {s : FactoryState}
      (h : s.workers.inUse < s.workers.capacity) :
      Step s { s with workers.inUse := s.workers.inUse + 1 }
  | releaseWorker {s : FactoryState} (h : 0 < s.workers.inUse) :
      Step s { s with workers.inUse := s.workers.inUse - 1 }
  | acquireAssembly {s : FactoryState}
      (h : s.assemblyStations.inUse < s.assemblyStations.capacity) :
      Step s { s with assemblyStations.inUse := s.assemblyStations.inUse + 1 }
  | releaseAssembly {s : FactoryState} (h : 0 < s.assemblyStations.inUse) :
      Step s { s with assemblyStations.inUse := s.assemblyStations.inUse - 1 }
  | acquireQc {s : FactoryState}
      (h : s.qcStations.inUse < s.qcStations.capacity) :
      Step s { s with qcStations.inUse := s.qcStations.inUse + 1 }
  | releaseQc {s : FactoryState} (h : 0 < s.qcStations.inUse) :
      Step s { s with qcStations.inUse := s.qcStations.inUse - 1 }
  | produceStart {s : FactoryState} (h : 0 < s.rawMaterials) :
      Step s (produceDebit s)
  | produceFinish {s : FactoryState} (batchSize : ℤ) (hb : 0 ≤ batchSize) :
      Step s (produceCredit batchSize s)
  | assembleStart {s : FactoryState} : Step s (assembleDebit s)
  | qcFinish {s : FactoryState} (isDefective defectDetected : Bool) :
      Step s (qcInspectionComplete isDefective defectDetected s)
  | ordersDaily {s : FactoryState} (dailyOrders : ℤ) (hd : 0 ≤ dailyOrders) :
      Step s (generateDailyOrders dailyOrders s)
  | cancellationStart {s : FactoryState} (rate : ℚ)
      (hr : 2/10 ≤ rate ∧ rate ≤ 5/10) :
      Step s (orderCancellationStart rate s)
  | cancellationEnd {s : FactoryState} : Step s (orderCancellationEnd s)
  | qualityStart {s : FactoryState} : Step s (qualityIssueStart s)
  | qualityEnd {s : FactoryState} : Step s (qualityIssueEnd s)
  | liquidate {s : FactoryState} : Step s (liquidateInventory s)
  | outsourcedOrders {s : FactoryState} (outsourced : ℤ)
      (ho : 0 ≤ outsourced) :
      Step s { s with fulfilledOrders := s.fulfilledOrders + outsourced,
                      revenue := s.revenue + (outsourced : ℚ) * 1500,
                      costs := s.costs + (outsourced : ℚ) * 1200 }
  | strategyCommand {s : FactoryState} (now : ℚ) (strategyIdx : ℕ)
      (activate : Bool) (customDuration : Option ℚ) :
      Step s (modifyStrategy now strategyIdx activate customDuration s).1
  | hourlyTick {s : FactoryState} (now : ℚ) :
      Step s (checkStrategyExpiration now s)
  | bulkDeliveryBatch {s : FactoryState} (batch : ℤ) (hb : 0 ≤ batch) :
      Step s { s with rawMaterials := s.rawMaterials + batch }
  | rawMaterialsDelivery {s : FactoryState} (amount : ℤ)
      (h : 500 ≤ amount) :
      Step s { s with rawMaterials := s.rawMaterials + amount }
  | frame {s : FactoryState} (t : FactoryState) (h : ClaimedEq s t) :
      Step s t

/-- States reachable from the initial factory state by atomic segments of
the simulation processes. -/
inductive Reachable : FactoryState → Prop where
  | init : Reachable initialState
  | step {s t : FactoryState} : Reachable s → Step s t → Reachable t

/-- The claimed pool invariant: users of the current resource object stay
between zero and capacity. -/
def PoolInv (p : PoolModel) : Prop := 0 ≤ p.inUse ∧ p.inUse ≤ p.capacity

/-- The ledger/pool invariant, slightly strengthened by the floors the code
maintains on the machine, worker and station totals (sell keeps at least
one machine, reduce keeps at least three workers), which guarantee that a
pool replacement never installs a negative capacity. -/
def LedgerPoolInv (s : FactoryState) : Prop :=
  0 ≤ s.rawMaterials ∧ 0 ≤ s.partsInventory ∧ 0 ≤ s.finishedProducts ∧
  0 ≤ s.backlog ∧ 0 ≤ s.cancelledOrders ∧ 0 ≤ s.totalOrders ∧
  0 ≤ s.fulfilledOrders ∧
  PoolInv s.cncMachines ∧ PoolInv s.workers ∧
  PoolInv s.assemblyStations ∧ PoolInv s.qcStations ∧
  1 ≤ s.numCncMachines ∧ 3 ≤ s.numWorkers ∧ 1 ≤ s.numAssemblyStations

theorem pyInt_nonneg {q : ℚ} (h : 0 ≤ q) : 0 ≤ pyInt q :=
  Int.floor_nonneg.2 h

theorem pyInt_mul_nonneg {b : ℤ} {r : ℚ} (hb : 0 ≤ b) (hr : 0 ≤ r) :
    0 ≤ pyInt ((b : ℚ) * r) := by
  apply pyInt_nonneg
  have hb' : (0 : ℚ) ≤ (b : ℚ) := by exact_mod_cast hb
  positivity

theorem pyInt_mul_le {b : ℤ} {r : ℚ} (hb : 0 ≤ b) (hr1 : r ≤ 1) :
    pyInt ((b : ℚ) * r) ≤ b := by
  have hb' : (0 : ℚ) ≤ (b : ℚ) := by exact_mod_cast hb
  have h1 : (b : ℚ) * r ≤ (b : ℚ) := mul_le_of_le_one_right hb' hr1
  calc pyInt ((b : ℚ) * r) ≤ ⌊(b : ℚ)⌋ := Int.floor_le_floor h1
    _ = b := Int.floor_intCast b

theorem pyInt_int_mul_le {c : ℤ} {r : ℚ} (hc : 0 ≤ c) (hr1 : r ≤ 1) :
    pyInt ((c : ℚ) * r) ≤ c := pyInt_mul_le hc hr1

theorem processBacklog_inv {s : FactoryState} (h : LedgerPoolInv s) :
    LedgerPoolInv (processBacklog s) := by
  unfold LedgerPoolInv PoolInv at h ⊢
  simp only [processBacklog]
  split_ifs with h1
  · simp only []
    omega
  · exact h

theorem applyStrategyEffects_inv {now dur : ℚ}
    {strategy : AdaptationStrategy} {activate : Bool} {s : FactoryState}
    (h : LedgerPoolInv s) :
    LedgerPoolInv (applyStrategyEffects now dur strategy activate s) := by
  unfold LedgerPoolInv PoolInv at h ⊢
  cases strategy <;> cases activate <;>
    simp only [applyStrategyEffects] <;>
    split_ifs <;> simp only [] <;> omega

theorem executeOneTimeStrategy_inv {strategy : AdaptationStrategy}
    {s : FactoryState} (h : LedgerPoolInv s) :
    LedgerPoolInv (executeOneTimeStrategy strategy s) := by
  obtain ⟨h1, h2, h3, h4, h5, h6, h7, hp1, hp2, hp3, hp4, hn1, hn2, hn3⟩ := h
  have hc0 : 0 ≤ pyInt ((s.backlog : ℚ) * (4/10)) :=
    pyInt_mul_nonneg h4 (by norm_num)
  have hc2 : pyInt ((s.backlog : ℚ) * (4/10)) ≤ s.backlog :=
    pyInt_mul_le h4 (by norm_num)
  unfold PoolInv at hp1 hp2 hp3 hp4
  unfold LedgerPoolInv PoolInv
  cases strategy <;>
    simp only [executeOneTimeStrategy, resizeReplace] <;>
    (try split_ifs) <;> (try simp only []) <;> omega

theorem modifyStrategy_inv {now : ℚ} {strategyIdx : ℕ} {activate : Bool}
    {customDuration : Option ℚ} {s : FactoryState} (h : LedgerPoolInv s) :
    LedgerPoolInv (modifyStrategy now strategyIdx activate customDuration s).1 := by
  unfold modifyStrategy
  cases hidx : strategyList[strategyIdx]? with
  | none => exact h
  | some strategy =>
      cases activate with
      | false =>
          simp only [Bool.false_eq_true, if_false]
          split_ifs with h1
          · apply applyStrategyEffects_inv
            unfold LedgerPoolInv PoolInv at h ⊢
            simpa using h
          · exact h
      | true =>
          simp only [if_true]
          split_ifs with h1 h2
          · have e1 : LedgerPoolInv { s with costs := s.costs + implementationCost strategy } := by
              unfold LedgerPoolInv PoolInv at h ⊢
              simpa using h
            have e2 : LedgerPoolInv (executeOneTimeStrategy strategy
                { s with costs := s.costs + implementationCost strategy }) :=
              executeOneTimeStrategy_inv e1
            unfold LedgerPoolInv PoolInv at e2 ⊢
            simpa using e2
          all_goals first
            | exact h
            | (apply applyStrategyEffects_inv
               unfold LedgerPoolInv PoolInv at h ⊢
               simpa using h)

theorem deactivateExpired_inv {now : ℚ} {strategy : AdaptationStrategy}
    {s : FactoryState} (h : LedgerPoolInv s) :
    LedgerPoolInv (deactivateExpired now s strategy) := by
  apply applyStrategyEffects_inv
  unfold LedgerPoolInv PoolInv at h ⊢
  simpa using h

theorem foldl_deactivateExpired_inv {now : ℚ}
    (l : List AdaptationStrategy) {s : FactoryState} (h : LedgerPoolInv s) :
    LedgerPoolInv (l.foldl (deactivateExpired now) s) := by
  induction l generalizing s with
  | nil => exact h
  | cons a l ih => exact ih (deactivateExpired_inv h)

theorem checkStrategyExpiration_inv {now : ℚ} {s : FactoryState}
    (h : LedgerPoolInv s) : LedgerPoolInv (checkStrategyExpiration now s) :=
  foldl_deactivateExpired_inv _ h

theorem produceDebit_inv {s : FactoryState} (h : LedgerPoolInv s) :
    LedgerPoolInv (produceDebit s) := by
  unfold LedgerPoolInv PoolInv at h ⊢
  simp only [produceDebit]
  omega

theorem produceCredit_inv {batchSize : ℤ} (hb : 0 ≤ batchSize)
    {s : FactoryState} (h : LedgerPoolInv s) :
    LedgerPoolInv (produceCredit batchSize s) := by
  unfold LedgerPoolInv PoolInv at h ⊢
  simp only [produceCredit]
  omega

theorem assembleDebit_inv {s : FactoryState} (h : LedgerPoolInv s) :
    LedgerPoolInv (assembleDebit s) := by
  unfold LedgerPoolInv PoolInv at h ⊢
  simp only [assembleDebit, PARTS_PER_PRODUCT]
  omega

theorem qcInspectionComplete_inv {isDefective defectDetected : Bool}
    {s : FactoryState} (h : LedgerPoolInv s) :
    LedgerPoolInv (qcInspectionComplete isDefective defectDetected s) := by
  apply processBacklog_inv
  unfold LedgerPoolInv PoolInv at h ⊢
  unfold qcRecordInspection
  cases isDefective <;> cases defectDetected <;> simp_all <;> omega

theorem generateDailyOrders_inv {dailyOrders : ℤ} (hd : 0 ≤ dailyOrders)
    {s : FactoryState} (h : LedgerPoolInv s) :
    LedgerPoolInv (generateDailyOrders dailyOrders s) := by
  apply processBacklog_inv
  unfold LedgerPoolInv PoolInv at h ⊢
  simp only [recordDailyOrders]
  omega

theorem orderCancellationStart_inv {rate : ℚ}
    (hr : 2/10 ≤ rate ∧ rate ≤ 5/10) {s : FactoryState}
    (h : LedgerPoolInv s) : LedgerPoolInv (orderCancellationStart rate s) := by
  obtain ⟨h1, h2, h3, h4, h5, h6, h7, hrest⟩ := h
  have hb0 : 0 ≤ pyInt ((s.backlog : ℚ) * rate) :=
    pyInt_mul_nonneg h4 (by linarith [hr.1])
  have hb1 : pyInt ((s.backlog : ℚ) * rate) ≤ s.backlog :=
    pyInt_mul_le h4 (by linarith [hr.2])
  have hb2 : 0 ≤ pyInt ((pyInt ((s.backlog : ℚ) * rate) : ℚ) * (6/10)) :=
    pyInt_mul_nonneg hb0 (by norm_num)
  have hb3 : pyInt ((pyInt ((s.backlog : ℚ) * rate) : ℚ) * (6/10)) ≤
      pyInt ((s.backlog : ℚ) * rate) :=
    pyInt_mul_le hb0 (by norm_num)
  unfold PoolInv at hrest
  unfold LedgerPoolInv PoolInv
  simp only [orderCancellationStart]
  split_ifs <;> (try simp only []) <;> omega

theorem qualityIssueStart_inv {s : FactoryState} (h : LedgerPoolInv s) :
    LedgerPoolInv (qualityIssueStart s) := by
  obtain ⟨h1, h2, h3, h4, h5, h6, h7, hrest⟩ := h
  have ha0 : 0 ≤ pyInt ((s.finishedProducts : ℚ) * (15/100)) :=
    pyInt_mul_nonneg h3 (by norm_num)
  have ha1 : pyInt ((s.finishedProducts : ℚ) * (15/100)) ≤ s.finishedProducts :=
    pyInt_mul_le h3 (by norm_num)
  have ha2 : 0 ≤ pyInt ((s.finishedProducts : ℚ) * (4/10)) :=
    pyInt_mul_nonneg h3 (by norm_num)
  have ha3 : pyInt ((s.finishedProducts : ℚ) * (4/10)) ≤ s.finishedProducts :=
    pyInt_mul_le h3 (by norm_num)
  unfold PoolInv at hrest
  unfold LedgerPoolInv PoolInv
  simp only [qualityIssueStart]
  split_ifs <;> (try simp only []) <;> omega

theorem liquidateInventory_inv {s : FactoryState} (h : LedgerPoolInv s) :
    LedgerPoolInv (liquidateInventory s) := by
  unfold LedgerPoolInv PoolInv at h ⊢
  simp only [liquidateInventory]
  split_ifs <;> (try simp only []) <;> omega

theorem step_inv {s t : FactoryState} (hst : Step s t)
    (h : LedgerPoolInv s) : LedgerPoolInv t := by
  cases hst with
  | acquireCnc h1 =>
      unfold LedgerPoolInv PoolInv at h ⊢; simp only []; omega
  | releaseCnc h1 =>
      unfold LedgerPoolInv PoolInv at h ⊢; simp only []; omega
  | acquireWorker h1 =>
      unfold LedgerPoolInv PoolInv at h ⊢; simp only []; omega
  | releaseWorker h1 =>
      unfold LedgerPoolInv PoolInv at h ⊢; simp only []; omega
  | acquireAssembly h1 =>
      unfold LedgerPoolInv PoolInv at h ⊢; simp only []; omega
  | releaseAssembly h1 =>
      unfold LedgerPoolInv PoolInv at h ⊢; simp only []; omega
  | acquireQc h1 =>
      unfold LedgerPoolInv PoolInv at h ⊢; simp only []; omega
  | releaseQc h1 =>
      unfold LedgerPoolInv PoolInv at h ⊢; simp only []; omega
  | produceStart h1 => exact produceDebit_inv h
  | produceFinish batchSize hb => exact produceCredit_inv hb h
  | assembleStart => exact assembleDebit_inv h
  | qcFinish isDefective defectDetected => exact qcInspectionComplete_inv h
  | ordersDaily dailyOrders hd => exact generateDailyOrders_inv hd h
  | cancellationStart rate hr => exact orderCancellationStart_inv hr h
  | cancellationEnd =>
      unfold LedgerPoolInv PoolInv at h ⊢
      simpa [orderCancellationEnd] using h
  | qualityStart => exact qualityIssueStart_inv h
  | qualityEnd =>
      unfold LedgerPoolInv PoolInv at h ⊢
      simpa [qualityIssueEnd] using h
  | liquidate => exact liquidateInventory_inv h
  | outsourcedOrders outsourced ho =>
      unfold LedgerPoolInv PoolInv at h ⊢; simp only []; omega
  | strategyCommand now strategyIdx activate customDuration =>
      exact modifyStrategy_inv h
  | hourlyTick now => exact checkStrategyExpiration_inv h
  | bulkDeliveryBatch batch hb =>
      unfold LedgerPoolInv PoolInv at h ⊢; simp only []; omega
  | rawMaterialsDelivery amount h1 =>
      unfold LedgerPoolInv PoolInv at h ⊢; simp only []; omega
  | frame t hEq =>
      unfold ClaimedEq PoolEq at hEq
      unfold LedgerPoolInv PoolInv at h ⊢
      omega

theorem reachable_inv {s : FactoryState} (h : Reachable s) :
    LedgerPoolInv s := by
  induction h with
  | init =>
      unfold LedgerPoolInv PoolInv initialState
      norm_num
  | step hr hs ih => exact step_inv hs ih

/-- C2: in every reachable simulation state, every one of the four resource
pools satisfies 0 ≤ inUse ≤ capacity, and every inventory-ledger counter
(raw materials, parts, finished products, backlog, cancelled orders, total
orders, fulfilled orders) is nonnegative; no operation of the core drives a
ledger counter negative or a current pool object over its capacity. -/
theorem c2_reachable_ledger_pool_invariant {s : FactoryState}
    (h : Reachable s) :
    (0 ≤ s.cncMachines.inUse ∧ s.cncMachines.inUse ≤ s.cncMachines.capacity) ∧
    (0 ≤ s.workers.inUse ∧ s.workers.inUse ≤ s.workers.capacity) ∧
    (0 ≤ s.assemblyStations.inUse ∧
      s.assemblyStations.inUse ≤ s.assemblyStations.capacity) ∧
    (0 ≤ s.qcStations.inUse ∧ s.qcStations.inUse ≤ s.qcStations.capacity) ∧
    0 ≤ s.rawMaterials ∧ 0 ≤ s.partsInventory ∧ 0 ≤ s.finishedProducts ∧
    0 ≤ s.backlog ∧ 0 ≤ s.cancelledOrders ∧ 0 ≤ s.totalOrders ∧
    0 ≤ s.fulfilledOrders := by
  have hinv := reachable_inv h
  unfold LedgerPoolInv PoolInv at hinv
  tauto

/-- Witness for C2 at a concrete reachable state. -/
theorem c2_reachable_ledger_pool_invariant_witness :
    Reachable initialState ∧
    ((0 ≤ initialState.cncMachines.inUse ∧
        initialState.cncMachines.inUse ≤ initialState.cncMachines.capacity) ∧
     (0 ≤ initialState.workers.inUse ∧
        initialState.workers.inUse ≤ initialState.workers.capacity) ∧
     (0 ≤ initialState.assemblyStations.inUse ∧
        initialState.assemblyStations.inUse ≤ initialState.assemblyStations.capacity) ∧
     (0 ≤ initialState.qcStations.inUse ∧
        initialState.qcStations.inUse ≤ initialState.qcStations.capacity) ∧
     0 ≤ initialState.rawMaterials ∧ 0 ≤ initialState.partsInventory ∧
     0 ≤ initialState.finishedProducts ∧ 0 ≤ initialState.backlog ∧
     0 ≤ initialState.cancelledOrders ∧ 0 ≤ initialState.totalOrders ∧
     0 ≤ initialState.fulfilledOrders) :=
  ⟨Reachable.init, c2_reachable_ledger_pool_invariant Reachable.init⟩

/-- The global rate parameters together with the factory defect rate:
exactly the quantities the effect table of apply_strategy_effects
multiplies on activation and divides back on deactivation. -/
def rateView (s : FactoryState) : RateParams × ℚ := (s.params, s.defectRate)

theorem roundtrip_restores_rateView (strategy : AdaptationStrategy)
    (now1 dur now2 : ℚ) (s : FactoryState)
    (hp : isOneTime strategy = false) :
    rateView (applyStrategyEffects now2 0 strategy false
      (applyStrategyEffects now1 dur strategy true s)) = rateView s := by
  cases strategy <;>
    simp_all [applyStrategyEffects, rateView, isOneTime] <;> ring_nf

theorem pm_activate_eq (now : ℚ) (s0 : FactoryState)
    (hPM : PREVENTIVE_MAINTENANCE ∉ s0.activeStrategies) :
    (modifyStrategy now 0 true none s0).1 =
      applyStrategyEffects now (14 * 24 * 60) PREVENTIVE_MAINTENANCE true
        { s0 with activeStrategies :=
            PREVENTIVE_MAINTENANCE :: s0.activeStrategies } := by
  simp [modifyStrategy, strategyList, isOneTime, hPM, defaultDuration]

theorem pm_expiration_restores (s0 : FactoryState) (now t : ℚ)
    (hPM : PREVENTIVE_MAINTENANCE ∉ s0.activeStrategies)
    (hexp : s0.expirationTimes = [])
    (ht : now + 14 * 24 * 60 ≤ t) :
    (checkStrategyExpiration t
        (modifyStrategy now 0 true none s0).1).params.cncFailureChance =
      s0.params.cncFailureChance ∧
    PREVENTIVE_MAINTENANCE ∉
      (checkStrategyExpiration t
        (modifyStrategy now 0 true none s0).1).activeStrategies := by
  rw [pm_activate_eq now s0 hPM]
  constructor
  · simp [applyStrategyEffects, checkStrategyExpiration, alistInsert, hexp,
          deactivateExpired, removeStrategy, ht]
    ring
  · simp [applyStrategyEffects, checkStrategyExpiration, alistInsert, hexp,
          deactivateExpired, removeStrategy, ht]

/-- C1 (amended): for every persistent strategy, deactivating right after
activating (so that no other operation touches the parameters in between)
restores every global rate parameter and the defect rate to the exact
pre-activation value, in exact rational arithmetic; activating
PREVENTIVE_MAINTENANCE makes CNC_FAILURE_CHANCE exactly 20 percent of its
pre-activation value, and once the hourly expiration tick runs at or after
the expiration time the chance is back to exactly its original value and
the strategy is no longer in the active set.  The unamended claim is
refuted by a quality-control-issue disruption running inside the active
window, which overwrites defect_rate absolutely (see the counterexample
theorem). -/
theorem c1_roundtrip_and_scenario_b :
    (∀ (strategy : AdaptationStrategy) (now1 dur now2 : ℚ) (s : FactoryState),
        isOneTime strategy = false →
        rateView (applyStrategyEffects now2 0 strategy false
          (applyStrategyEffects now1 dur strategy true s)) = rateView s) ∧
    (∀ (s0 : FactoryState) (now t : ℚ),
        PREVENTIVE_MAINTENANCE ∉ s0.activeStrategies →
        s0.expirationTimes = [] →
        now + 14 * 24 * 60 ≤ t →
        (modifyStrategy now 0 true none s0).1.params.cncFailureChance =
          s0.params.cncFailureChance * (2/10) ∧
        (checkStrategyExpiration t
            (modifyStrategy now 0 true none s0).1).params.cncFailureChance =
          s0.params.cncFailureChance ∧
        PREVENTIVE_MAINTENANCE ∉
          (checkStrategyExpiration t
            (modifyStrategy now 0 true none s0).1).activeStrategies) := by
  constructor
  · exact roundtrip_restores_rateView
  · intro s0 now t hPM hexp ht
    have h2 := pm_expiration_restores s0 now t hPM hexp ht
    have h1 : (modifyStrategy now 0 true none s0).1.params.cncFailureChance =
        s0.params.cncFailureChance * (2/10) := by
      rw [pm_activate_eq now s0 hPM]
      simp [applyStrategyEffects]
    exact ⟨h1, h2.1, h2.2⟩

/-- Witness for C1 at concrete inputs: the FLEXIBLE_WORKFORCE round trip on
the initial state, and scenario B run from the initial state with
activation at time 0 and the expiration tick at time 30000. -/
theorem c1_roundtrip_and_scenario_b_witness :
    (isOneTime FLEXIBLE_WORKFORCE = false ∧
      rateView (applyStrategyEffects 10 0 FLEXIBLE_WORKFORCE false
        (applyStrategyEffects 0 30240 FLEXIBLE_WORKFORCE true initialState)) =
        rateView initialState) ∧
    (PREVENTIVE_MAINTENANCE ∉ initialState.activeStrategies ∧
      initialState.expirationTimes = [] ∧
      (0 : ℚ) + 14 * 24 * 60 ≤ 30000 ∧
      (modifyStrategy 0 0 true none initialState).1.params.cncFailureChance =
        initialState.params.cncFailureChance * (2/10) ∧
      (checkStrategyExpiration 30000
          (modifyStrategy 0 0 true none initialState).1).params.cncFailureChance =
        initialState.params.cncFailureChance ∧
      PREVENTIVE_MAINTENANCE ∉
        (checkStrategyExpiration 30000
          (modifyStrategy 0 0 true none initialState).1).activeStrategies) := by
  refine ⟨⟨rfl, c1_roundtrip_and_scenario_b.1 FLEXIBLE_WORKFORCE 0 30240 10
    initialState rfl⟩, ?_⟩
  have h := c1_roundtrip_and_scenario_b.2 initialState 0 30000
    (by simp [initialState]) rfl (by norm_num)
  exact ⟨by simp [initialState], rfl, by norm_num, h.1, h.2.1, h.2.2⟩

/-- C1 counterexample to the unamended claim: activate QUALITY_MONITORING
(index 5) on the initial state, let a quality-control-issue disruption run
and end inside the active window, then deactivate.  The disruption resets
defect_rate absolutely to the 2 percent baseline, so the deactivation
divides it by 0.4 and leaves 1/20 instead of the pre-activation 1/50:
deactivating after activating does not restore the modified parameter. -/
theorem c1_counterexample :
    ((modifyStrategy 6000 5 false none
        (qualityIssueEnd (qualityIssueStart
          ((modifyStrategy 0 5 true none initialState).1)))).1).defectRate ≠
      initialState.defectRate := by
  norm_num [modifyStrategy, strategyList, isOneTime, applyStrategyEffects,
    qualityIssueStart, qualityIssueEnd, initialState, pyInt, alistInsert,
    alistRemove, removeStrategy, defaultDuration]

theorem executeOneTimeStrategy_activeStrategies
    (strategy : AdaptationStrategy) (s : FactoryState) :
    (executeOneTimeStrategy strategy s).activeStrategies =
      s.activeStrategies := by
  cases strategy <;> simp only [executeOneTimeStrategy] <;>
    (try split_ifs) <;> simp only []

/-- C4 counterexample: with all five CNC machines held, selling a machine
replaces the pool by a fresh simpy.Resource of capacity 4 with zero users,
so even though the five surviving holders exceed the new capacity, a new
acquisition succeeds immediately, before any release; this refutes the
claim that no new acquisitions succeed until releases bring the in-use
count back under the new ceiling. -/
theorem c4_counterexample :
    (executeOneTimeStrategy SELL_CNC_MACHINE
        { initialState with
            cncMachines := { capacity := 5, inUse := 5, oldHolders := 0 } }
      ).cncMachines.capacity = 4 ∧
    totalHolders (executeOneTimeStrategy SELL_CNC_MACHINE
        { initialState with
            cncMachines := { capacity := 5, inUse := 5, oldHolders := 0 } }
      ).cncMachines = 5 ∧
    canAcquire (executeOneTimeStrategy SELL_CNC_MACHINE
        { initialState with
            cncMachines := { capacity := 5, inUse := 5, oldHolders := 0 } }
      ).cncMachines = true := by
  decide

/-- C4 (amended): resizing a pool at runtime changes the capacity
immediately and never revokes a holder (the total holder count is
preserved), but because the code installs a brand-new resource object with
zero users, acquisitions after the resize succeed whenever the new
capacity is positive, regardless of how many pre-resize holders remain. -/
theorem c4_resize_semantics (s : FactoryState) (h : 1 < s.numCncMachines) :
    (executeOneTimeStrategy SELL_CNC_MACHINE s).cncMachines.capacity =
      s.numCncMachines - 1 ∧
    totalHolders (executeOneTimeStrategy SELL_CNC_MACHINE s).cncMachines =
      totalHolders s.cncMachines ∧
    (canAcquire (executeOneTimeStrategy SELL_CNC_MACHINE s).cncMachines = true ↔
      0 < s.numCncMachines - 1) ∧
    (executeOneTimeStrategy HIRE_WORKERS s).workers.capacity =
      s.numWorkers + 3 ∧
    totalHolders (executeOneTimeStrategy HIRE_WORKERS s).workers =
      totalHolders s.workers := by
  simp [executeOneTimeStrategy, resizeReplace, totalHolders, canAcquire, h]
  omega

/-- Witness for C4 at the all-machines-held state. -/
theorem c4_resize_semantics_witness :
    (1 : ℤ) < ({ initialState with
        cncMachines := { capacity := 5, inUse := 5, oldHolders := 0 } }
        : FactoryState).numCncMachines ∧
    ((executeOneTimeStrategy SELL_CNC_MACHINE
        { initialState with
            cncMachines := { capacity := 5, inUse := 5, oldHolders := 0 } }
      ).cncMachines.capacity =
      ({ initialState with
          cncMachines := { capacity := 5, inUse := 5, oldHolders := 0 } }
        : FactoryState).numCncMachines - 1 ∧
     totalHolders (executeOneTimeStrategy SELL_CNC_MACHINE
        { initialState with
            cncMachines := { capacity := 5, inUse := 5, oldHolders := 0 } }
      ).cncMachines =
      totalHolders ({ initialState with
          cncMachines := { capacity := 5, inUse := 5, oldHolders := 0 } }
        : FactoryState).cncMachines ∧
     (canAcquire (executeOneTimeStrategy SELL_CNC_MACHINE
        { initialState with
            cncMachines := { capacity := 5, inUse := 5, oldHolders := 0 } }
      ).cncMachines = true ↔
      0 < ({ initialState with
          cncMachines := { capacity := 5, inUse := 5, oldHolders := 0 } }
        : FactoryState).numCncMachines - 1) ∧
     (executeOneTimeStrategy HIRE_WORKERS
        { initialState with
            cncMachines := { capacity := 5, inUse := 5, oldHolders := 0 } }
      ).workers.capacity =
      ({ initialState with
          cncMachines := { capacity := 5, inUse := 5, oldHolders := 0 } }
        : FactoryState).numWorkers + 3 ∧
     totalHolders (executeOneTimeStrategy HIRE_WORKERS
        { initialState with
            cncMachines := { capacity := 5, inUse := 5, oldHolders := 0 } }
      ).workers =
      totalHolders ({ initialState with
          cncMachines := { capacity := 5, inUse := 5, oldHolders := 0 } }
        : FactoryState).workers) :=
  ⟨by decide, c4_resize_semantics _ (by decide)⟩

/-- C7: re-activating an already-active persistent strategy returns the
no-op result and changes no state; deactivating an inactive persistent
strategy, or any one-shot strategy, is a no-op; a one-shot strategy is
never added to the active set and the execution path is taken again on
every re-activation (it stays re-activatable). -/
theorem c7_modify_strategy_state_machine :
    (∀ (now : ℚ) (idx : ℕ) (customDuration : Option ℚ) (s : FactoryState)
        (strategy : AdaptationStrategy),
        strategyList[idx]? = some strategy →
        isOneTime strategy = false → strategy ∈ s.activeStrategies →
        modifyStrategy now idx true customDuration s =
          (s, StrategyResult.alreadyActive)) ∧
    (∀ (now : ℚ) (idx : ℕ) (customDuration : Option ℚ) (s : FactoryState)
        (strategy : AdaptationStrategy),
        strategyList[idx]? = some strategy →
        isOneTime strategy = false → strategy ∉ s.activeStrategies →
        modifyStrategy now idx false customDuration s =
          (s, StrategyResult.noChange)) ∧
    (∀ (now : ℚ) (idx : ℕ) (customDuration : Option ℚ) (s : FactoryState)
        (strategy : AdaptationStrategy),
        strategyList[idx]? = some strategy →
        isOneTime strategy = true →
        modifyStrategy now idx false customDuration s =
          (s, StrategyResult.noChange)) ∧
    (∀ (now : ℚ) (idx : ℕ) (customDuration : Option ℚ) (s : FactoryState)
        (strategy : AdaptationStrategy),
        strategyList[idx]? = some strategy →
        isOneTime strategy = true →
        (modifyStrategy now idx true customDuration s).2 =
          StrategyResult.oneTimeExecuted ∧
        (modifyStrategy now idx true customDuration s).1.activeStrategies =
          s.activeStrategies) := by
  refine ⟨?_, ?_, ?_, ?_⟩
  · intro now idx customDuration s strategy hidx hone hmem
    simp [modifyStrategy, hidx, hone, hmem]
  · intro now idx customDuration s strategy hidx hone hmem
    simp [modifyStrategy, hidx, hone, hmem]
  · intro now idx customDuration s strategy hidx hone
    simp [modifyStrategy, hidx, hone]
  · intro now idx customDuration s strategy hidx hone
    simp [modifyStrategy, hidx, hone,
      executeOneTimeStrategy_activeStrategies]

/-- Witness for C7 at concrete inputs: PREVENTIVE_MAINTENANCE (index 0)
active and inactive, and the one-shot PURCHASE_CNC_MACHINE (index 12). -/
theorem c7_modify_strategy_state_machine_witness :
    (strategyList[0]? = some PREVENTIVE_MAINTENANCE ∧
      isOneTime PREVENTIVE_MAINTENANCE = false ∧
      PREVENTIVE_MAINTENANCE ∈
        ({ initialState with
            activeStrategies := [PREVENTIVE_MAINTENANCE] }
          : FactoryState).activeStrategies ∧
      modifyStrategy 0 0 true none
          { initialState with
              activeStrategies := [PREVENTIVE_MAINTENANCE] } =
        ({ initialState with
            activeStrategies := [PREVENTIVE_MAINTENANCE] },
          StrategyResult.alreadyActive)) ∧
    (PREVENTIVE_MAINTENANCE ∉ initialState.activeStrategies ∧
      modifyStrategy 0 0 false none initialState =
        (initialState, StrategyResult.noChange)) ∧
    (strategyList[12]? = some PURCHASE_CNC_MACHINE ∧
      isOneTime PURCHASE_CNC_MACHINE = true ∧
      modifyStrategy 0 12 false none initialState =
        (initialState, StrategyResult.noChange)) ∧
    ((modifyStrategy 0 12 true none initialState).2 =
        StrategyResult.oneTimeExecuted ∧
      (modifyStrategy 0 12 true none initialState).1.activeStrategies =
        initialState.activeStrategies) := by
  refine ⟨⟨rfl, rfl, by simp, ?_⟩, ⟨by simp [initialState], ?_⟩, ⟨rfl, rfl, ?_⟩, ?_⟩
  · exact c7_modify_strategy_state_machine.1 0 0 none _ PREVENTIVE_MAINTENANCE
      rfl rfl (by simp)
  · exact c7_modify_strategy_state_machine.2.1 0 0 none initialState
      PREVENTIVE_MAINTENANCE rfl rfl (by simp [initialState])
  · exact c7_modify_strategy_state_machine.2.2.1 0 12 none initialState
      PURCHASE_CNC_MACHINE rfl rfl
  · exact c7_modify_strategy_state_machine.2.2.2 0 12 none initialState
      PURCHASE_CNC_MACHINE rfl rfl

/-- C10: executing the one-shot CANCEL_PENDING_ORDERS (index 21) on a state
with backlog at most 10 leaves backlog, cancelled orders and revenue
unchanged (the execution only logs), while modify_strategy has already
charged the 20000 implementation cost to costs. -/
theorem c10_cancel_pending_small_backlog (now : ℚ)
    (customDuration : Option ℚ) (s : FactoryState) (h : s.backlog ≤ 10) :
    (modifyStrategy now 21 true customDuration s).1.backlog = s.backlog ∧
    (modifyStrategy now 21 true customDuration s).1.cancelledOrders =
      s.cancelledOrders ∧
    (modifyStrategy now 21 true customDuration s).1.revenue = s.revenue ∧
    (modifyStrategy now 21 true customDuration s).1.costs = s.costs + 20000 ∧
    (modifyStrategy now 21 true customDuration s).2 =
      StrategyResult.oneTimeExecuted := by
  have hns : ¬ (10 : ℤ) < s.backlog := by omega
  simp [modifyStrategy, strategyList, isOneTime, executeOneTimeStrategy,
        implementationCost, hns]

/-- Witness for C10 at the initial state, whose backlog is 0. -/
theorem c10_cancel_pending_small_backlog_witness :
    initialState.backlog ≤ 10 ∧
    ((modifyStrategy 0 21 true none initialState).1.backlog =
        initialState.backlog ∧
     (modifyStrategy 0 21 true none initialState).1.cancelledOrders =
        initialState.cancelledOrders ∧
     (modifyStrategy 0 21 true none initialState).1.revenue =
        initialState.revenue ∧
     (modifyStrategy 0 21 true none initialState).1.costs =
        initialState.costs + 20000 ∧
     (modifyStrategy 0 21 true none initialState).2 =
        StrategyResult.oneTimeExecuted) :=
  ⟨by decide, c10_cancel_pending_small_backlog 0 none initialState (by decide)⟩

/-- C6: process_backlog transfers exactly min(finished_products, backlog)
units, decrementing both counters by that amount, incrementing
fulfilled_orders by it and recognising 1500 of revenue per unit; and it is
invoked as the final action of every QC inspection completion (in
particular after every unit that passes) and of every daily order batch. -/
theorem c6_process_backlog_transfer (s : FactoryState)
    (hf : 0 ≤ s.finishedProducts) (hb : 0 ≤ s.backlog) :
    (processBacklog s).finishedProducts =
      s.finishedProducts - min s.finishedProducts s.backlog ∧
    (processBacklog s).backlog =
      s.backlog - min s.finishedProducts s.backlog ∧
    (processBacklog s).fulfilledOrders =
      s.fulfilledOrders + min s.finishedProducts s.backlog ∧
    (processBacklog s).revenue =
      s.revenue + ((min s.finishedProducts s.backlog : ℤ) : ℚ) * 1500 ∧
    (∀ (isDefective defectDetected : Bool),
        qcInspectionComplete isDefective defectDetected s =
          processBacklog (qcRecordInspection isDefective defectDetected s)) ∧
    (∀ dailyOrders : ℤ,
        generateDailyOrders dailyOrders s =
          processBacklog (recordDailyOrders dailyOrders s)) := by
  refine ⟨?_, ?_, ?_, ?_, fun a b => rfl, fun d => rfl⟩ <;>
    (simp only [processBacklog]
     split_ifs with h1
     · simp only []
     · have hz : min s.finishedProducts s.backlog = 0 := by omega
       simp [hz])

/-- Sample state for the C6 witness. -/
def backlogSampleState : FactoryState :=
  { initialState with finishedProducts := 7, backlog := 4 }

/-- Witness for C6 at finished_products = 7, backlog = 4. -/
theorem c6_process_backlog_transfer_witness :
    (0 ≤ backlogSampleState.finishedProducts ∧
      0 ≤ backlogSampleState.backlog) ∧
    ((processBacklog backlogSampleState).finishedProducts =
        backlogSampleState.finishedProducts -
          min backlogSampleState.finishedProducts backlogSampleState.backlog ∧
     (processBacklog backlogSampleState).backlog =
        backlogSampleState.backlog -
          min backlogSampleState.finishedProducts backlogSampleState.backlog ∧
     (processBacklog backlogSampleState).fulfilledOrders =
        backlogSampleState.fulfilledOrders +
          min backlogSampleState.finishedProducts backlogSampleState.backlog ∧
     (processBacklog backlogSampleState).revenue =
        backlogSampleState.revenue +
          ((min backlogSampleState.finishedProducts backlogSampleState.backlog
            : ℤ) : ℚ) * 1500 ∧
     (∀ (isDefective defectDetected : Bool),
        qcInspectionComplete isDefective defectDetected backlogSampleState =
          processBacklog
            (qcRecordInspection isDefective defectDetected backlogSampleState)) ∧
     (∀ dailyOrders : ℤ,
        generateDailyOrders dailyOrders backlogSampleState =
          processBacklog (recordDailyOrders dailyOrders backlogSampleState))) :=
  ⟨⟨by decide, by decide⟩,
    c6_process_backlog_transfer backlogSampleState (by decide) (by decide)⟩

/-- C8 counterexample: a state with no power outage, workers available but
the parts stock below PARTS_PER_PRODUCT makes the assembler guard fire on
parts availability alone, and the re-poll delay the code uses there is 60
minutes (simutd.py line 2240), not the 10 minutes the claim asserts for
the assembler parts-availability check. -/
theorem c8_counterexample :
    ({ initialState with partsInventory := 0 } : FactoryState).powerOutage
        = false ∧
    (0 : ℤ) < ({ initialState with partsInventory := 0 }
        : FactoryState).availableWorkers ∧
    ({ initialState with partsInventory := 0 } : FactoryState).partsInventory
        < PARTS_PER_PRODUCT ∧
    assemblerRepollDelay { initialState with partsInventory := 0 } =
        some 60 ∧
    assemblerRepollDelay { initialState with partsInventory := 0 } ≠
        some 10 := by
  refine ⟨rfl, by decide, by decide, ?_, ?_⟩ <;> decide

/-- C8 (amended): every pipeline cycle that finds no eligible work re-polls
after a short fixed delay instead of busy-spinning: 10 minutes for all the
producer guards (power outage, materials, machines, workers) and for the
assembler power-outage guard, but 60 minutes for the assembler guard that
covers both parts availability and worker availability, and 60 minutes for
the assembler worker-oversubscription re-check. -/
theorem c8_repoll_delays (s : FactoryState) :
    (s.powerOutage = true →
        producerRepollDelay s = some 10 ∧ assemblerRepollDelay s = some 10) ∧
    (s.powerOutage = false →
      (s.rawMaterials ≤ 0 ∨ s.operationalCncMachines ≤ 0 ∨
          s.availableWorkers ≤ 0) →
        producerRepollDelay s = some 10) ∧
    (s.powerOutage = false →
      (s.partsInventory < PARTS_PER_PRODUCT ∨ s.availableWorkers ≤ 0) →
        assemblerRepollDelay s = some 60) ∧
    (s.powerOutage = false →
      ¬(s.rawMaterials ≤ 0 ∨ s.operationalCncMachines ≤ 0 ∨
          s.availableWorkers ≤ 0) →
        producerRepollDelay s = none) ∧
    (s.powerOutage = false →
      ¬(s.partsInventory < PARTS_PER_PRODUCT ∨ s.availableWorkers ≤ 0) →
        assemblerRepollDelay s = none) ∧
    assemblerOversubscriptionDelay = 60 := by
  refine ⟨?_, ?_, ?_, ?_, ?_, rfl⟩ <;>
    intros <;>
    simp_all [producerRepollDelay, assemblerRepollDelay]

/-- Witness for C8 at concrete states: an outage state, a starved producer,
a parts-starved assembler, and the fully stocked initial state. -/
theorem c8_repoll_delays_witness :
    (({ initialState with powerOutage := true } : FactoryState).powerOutage
        = true ∧
      producerRepollDelay { initialState with powerOutage := true } =
        some 10 ∧
      assemblerRepollDelay { initialState with powerOutage := true } =
        some 10) ∧
    (({ initialState with rawMaterials := 0 } : FactoryState).powerOutage
        = false ∧
      producerRepollDelay { initialState with rawMaterials := 0 } =
        some 10) ∧
    (assemblerRepollDelay { initialState with partsInventory := 2 } =
        some 60) ∧
    (producerRepollDelay initialState = none ∧
      assemblerRepollDelay initialState = none) := by
  refine ⟨⟨rfl, ?_, ?_⟩, ⟨rfl, ?_⟩, ?_, ⟨?_, ?_⟩⟩
  · exact (c8_repoll_delays { initialState with powerOutage := true }).1 rfl |>.1
  · exact (c8_repoll_delays { initialState with powerOutage := true }).1 rfl |>.2
  · exact (c8_repoll_delays { initialState with rawMaterials := 0 }).2.1 rfl
      (by decide)
  · exact (c8_repoll_delays { initialState with partsInventory := 2 }).2.2.1 rfl
      (by decide)
  · exact (c8_repoll_delays initialState).2.2.2.1 rfl (by decide)
  · exact (c8_repoll_delays initialState).2.2.2.2.1 rfl (by decide)

/-- The two pools involved in a compound acquisition: an assembly station
(or QC station) pool and the worker pool, as requested together by
assemble_products (simutd.py line 2253) and product_to_qc (line 2307). -/
structure TwoPoolState where
  stationCapacity : ℤ
  stationInUse : ℤ
  workerCapacity : ℤ
  workerInUse : ℤ
deriving DecidableEq, Repr

/-- The grant rule of simpy.Resource.request: the request is created on
entry to the with-block and succeeds immediately if and only if
users < capacity, occupying a slot from the moment it is granted. -/
def requestGrant (inUse capacity : ℤ) : ℤ × Bool :=
  if inUse < capacity then (inUse + 1, true) else (inUse, false)

/-- Entry into the compound with-block of assemble_products / product_to_qc:
both requests are created at once and each is granted independently by its
own pool; the Bool components report which sub-requests were granted
immediately. -/
def compoundRequest (s : TwoPoolState) : TwoPoolState × Bool × Bool :=
  let station := requestGrant s.stationInUse s.stationCapacity
  let worker := requestGrant s.workerInUse s.workerCapacity
  ({ s with stationInUse := station.1, workerInUse := worker.1 },
    station.2, worker.2)

/-- The AllOf condition `yield station_req & worker_req`: the caller resumes
only when both sub-requests have fired. -/
def compoundProceeds (granted : Bool × Bool) : Bool := granted.1 && granted.2

/-- A station pool with a free slot next to a fully occupied worker pool. -/
def starvedPairState : TwoPoolState :=
  { stationCapacity := 1, stationInUse := 0,
    workerCapacity := 1, workerInUse := 1 }

/-- C5 counterexample: with the station pool free and the worker pool full,
the compound request grants the station sub-request immediately (occupying
the station slot) while the worker sub-request stays pending, so the caller
is blocked on the worker pool while already holding a station slot; a
further station request by another process is refused because of that held
slot.  This refutes the claim that no process ever holds one pool slot of
the pair while blocked waiting for the other. -/
theorem c5_counterexample :
    (compoundRequest starvedPairState).2.1 = true ∧
    (compoundRequest starvedPairState).2.2 = false ∧
    compoundProceeds (compoundRequest starvedPairState).2 = false ∧
    (compoundRequest starvedPairState).1.stationInUse = 1 ∧
    (requestGrant (compoundRequest starvedPairState).1.stationInUse
        (compoundRequest starvedPairState).1.stationCapacity).2 = false := by
  decide

/-- C5 (amended): the compound acquisition is all-or-nothing only in the
sense that the caller resumes after the AllOf yield exactly when both
sub-requests have been granted; each sub-request, however, occupies its
pool slot from the moment its own pool grants it, so whenever one pool has
a free slot and the other is full the caller holds the first slot while
still blocked on the second. -/
theorem c5_compound_acquisition :
    (∀ s : TwoPoolState,
        compoundProceeds (compoundRequest s).2 = true ↔
          ((compoundRequest s).2.1 = true ∧ (compoundRequest s).2.2 = true)) ∧
    (∀ s : TwoPoolState,
        s.stationInUse < s.stationCapacity →
        ¬ s.workerInUse < s.workerCapacity →
        (compoundRequest s).2.1 = true ∧
        (compoundRequest s).2.2 = false ∧
        compoundProceeds (compoundRequest s).2 = false ∧
        (compoundRequest s).1.stationInUse = s.stationInUse + 1 ∧
        (compoundRequest s).1.workerInUse = s.workerInUse) := by
  constructor
  · intro s
    simp [compoundProceeds]
  · intro s h1 h2
    simp [compoundRequest, requestGrant, compoundProceeds, h1, h2]

/-- Witness for C5 at the station-free, workers-full state. -/
theorem c5_compound_acquisition_witness :
    (starvedPairState.stationInUse < starvedPairState.stationCapacity) ∧
    ¬(starvedPairState.workerInUse < starvedPairState.workerCapacity) ∧
    ((compoundRequest starvedPairState).2.1 = true ∧
     (compoundRequest starvedPairState).2.2 = false ∧
     compoundProceeds (compoundRequest starvedPairState).2 = false ∧
     (compoundRequest starvedPairState).1.stationInUse =
       starvedPairState.stationInUse + 1 ∧
     (compoundRequest starvedPairState).1.workerInUse =
       starvedPairState.workerInUse) :=
  ⟨by decide, by decide,
    c5_compound_acquisition.2 starvedPairState (by decide) (by decide)⟩

/-- The per-kind activity bookkeeping of the disruption processes of
simutd.py: for each disruption kind, how many instances of its process are
currently inside their active window, plus the boolean guard flags the
code actually checks (supply_chain_disrupted, has_quality_issue,
power_outage, order_cancellation_active) and the state the other kinds
consult (operational machines for cnc_machine_failure, backlog for
order_cancellation). -/
structure DisruptionState where
  operationalMachines : ℤ
  backlog : ℤ
  cncFailureActive : ℕ
  orderSpikeActive : ℕ
  supplyChainActive : ℕ
  workerAbsenceActive : ℕ
  qualityIssueActive : ℕ
  powerOutageActive : ℕ
  orderCancellationActive : ℕ
  supplyChainDisrupted : Bool
  hasQualityIssue : Bool
  powerOutage : Bool
  orderCancellationFlag : Bool
deriving DecidableEq, Repr

/-- One lifecycle event of a disruption process, as spawned unconditionally
by generate_disruptions (simutd.py lines 1642-1713) every six simulated
hours when the per-kind probability fires.  The bodies of
supply_chain_disruption, quality_control_issue, power_outage_event and
order_cancellation begin with a check of their kind flag and do nothing
when it is already set, so only a flag-clear start step exists for them;
cnc_machine_failure is guarded only by operational_cnc_machines > 0,
order_spike by nothing, and worker_absence only by the absentee draw, so
their start steps stack without bound. -/
inductive DStep : DisruptionState → DisruptionState → Prop where
  | cncFailureStart {s : DisruptionState} (h : 0 < s.operationalMachines) :
      DStep s { s with operationalMachines := s.operationalMachines - 1,
                       cncFailureActive := s.cncFailureActive + 1 }
  | cncFailureEnd {s : DisruptionState} (h : 0 < s.cncFailureActive) :
      DStep s { s with operationalMachines := s.operationalMachines + 1,
                       cncFailureActive := s.cncFailureActive - 1 }
  | orderSpikeStart {s : DisruptionState} :
      DStep s { s with orderSpikeActive := s.orderSpikeActive + 1 }
  | orderSpikeEnd {s : DisruptionState} (h : 0 < s.orderSpikeActive) :
      DStep s { s with orderSpikeActive := s.orderSpikeActive - 1 }
  | supplyChainStart {s : DisruptionState}
      (h : s.supplyChainDisrupted = false) :
      DStep s { s with supplyChainDisrupted := true,
                       supplyChainActive := s.supplyChainActive + 1 }
  | supplyChainEnd {s : DisruptionState} (h : 0 < s.supplyChainActive) :
      DStep s { s with supplyChainDisrupted := false,
                       supplyChainActive := s.supplyChainActive - 1 }
  | workerAbsenceStart {s : DisruptionState} :
      DStep s { s with workerAbsenceActive := s.workerAbsenceActive + 1 }
  | workerAbsenceEnd {s : DisruptionState} (h : 0 < s.workerAbsenceActive) :
      DStep s { s with workerAbsenceActive := s.workerAbsenceActive - 1 }
  | qualityIssueStart {s : DisruptionState} (h : s.hasQualityIssue = false) :
      DStep s { s with hasQualityIssue := true,
                       qualityIssueActive := s.qualityIssueActive + 1 }
  | qualityIssueEnd {s : DisruptionState} (h : 0 < s.qualityIssueActive) :
      DStep s { s with hasQualityIssue := false,
                       qualityIssueActive := s.qualityIssueActive - 1 }
  | powerOutageStart {s : DisruptionState} (h : s.powerOutage = false) :
      DStep s { s with powerOutage := true,
                       powerOutageActive := s.powerOutageActive + 1 }
  | powerOutageEnd {s : DisruptionState} (h : 0 < s.powerOutageActive) :
      DStep s { s with powerOutage := false,
                       powerOutageActive := s.powerOutageActive - 1 }
  | orderCancellationStart {s : DisruptionState} (cancelled : ℤ)
      (h : s.orderCancellationFlag = false) (hb : 0 < s.backlog)
      (hc : 0 ≤ cancelled ∧ cancelled ≤ s.backlog) :
      DStep s { s with orderCancellationFlag := true,
                       backlog := s.backlog - cancelled,
                       orderCancellationActive :=
                         s.orderCancellationActive + 1 }
  | orderCancellationEnd {s : DisruptionState}
      (h : 0 < s.orderCancellationActive) :
      DStep s { s with orderCancellationFlag := false,
                       orderCancellationActive :=
                         s.orderCancellationActive - 1 }
  | backlogGrows {s : DisruptionState} (d : ℤ) (hd : 0 ≤ d) :
      DStep s { s with backlog := s.backlog + d }

/-- The disruption bookkeeping at simulation start. -/
def dInitialState : DisruptionState :=
  { operationalMachines := 5, backlog := 0,
    cncFailureActive := 0, orderSpikeActive := 0, supplyChainActive := 0,
    workerAbsenceActive := 0, qualityIssueActive := 0,
    powerOutageActive := 0, orderCancellationActive := 0,
    supplyChainDisrupted := false, hasQualityIssue := false,
    powerOutage := false, orderCancellationFlag := false }

/-- Disruption states reachable from simulation start. -/
inductive DReachable : DisruptionState → Prop where
  | init : DReachable dInitialState
  | step {s t : DisruptionState} : DReachable s → DStep s t → DReachable t

/-- The invariant tying each guard flag to the instance count of its kind:
for the four flag-guarded kinds the flag is set exactly when one instance
is active, and the count never exceeds one. -/
def DisruptionFlagInv (s : DisruptionState) : Prop :=
  (s.supplyChainActive ≤ 1 ∧
    (s.supplyChainDisrupted = true ↔ s.supplyChainActive = 1)) ∧
  (s.qualityIssueActive ≤ 1 ∧
    (s.hasQualityIssue = true ↔ s.qualityIssueActive = 1)) ∧
  (s.powerOutageActive ≤ 1 ∧
    (s.powerOutage = true ↔ s.powerOutageActive = 1)) ∧
  (s.orderCancellationActive ≤ 1 ∧
    (s.orderCancellationFlag = true ↔ s.orderCancellationActive = 1))

theorem dstep_inv {s t : DisruptionState} (hst : DStep s t)
    (h : DisruptionFlagInv s) : DisruptionFlagInv t := by
  unfold DisruptionFlagInv at h ⊢
  cases hst <;> simp_all <;> omega

theorem dreachable_inv {s : DisruptionState} (h : DReachable s) :
    DisruptionFlagInv s := by
  induction h with
  | init => unfold DisruptionFlagInv dInitialState; simp
  | step hr hs ih => exact dstep_inv hs ih

/-- C3 counterexample: generate_disruptions spawns order_spike without any
per-kind guard (simutd.py lines 1664-1668 and 1840-1918: the order-spike
process body checks no active flag), so two consecutive generator firings
put two order-spike instances inside their active windows at once — a
reachable state with two active instances of the same kind, refuting
per-kind mutual exclusion. -/
theorem c3_counterexample :
    DReachable { dInitialState with orderSpikeActive := 2 } ∧
    ¬ ({ dInitialState with orderSpikeActive := 2 }
        : DisruptionState).orderSpikeActive ≤ 1 :=
  ⟨DReachable.step (DReachable.step DReachable.init DStep.orderSpikeStart)
      DStep.orderSpikeStart, by decide⟩

/-- C3 (amended): mutual exclusion per kind holds exactly for the four
disruption kinds whose process body is guarded by an active flag — supply
chain, quality issue, power outage and order cancellation: in every
reachable state at most one instance of each of those kinds is active.
CNC failure, order spike and worker absence have no such guard and may
overlap with instances of their own kind. -/
theorem c3_flag_guarded_mutual_exclusion {s : DisruptionState}
    (h : DReachable s) :
    s.supplyChainActive ≤ 1 ∧ s.qualityIssueActive ≤ 1 ∧
    s.powerOutageActive ≤ 1 ∧ s.orderCancellationActive ≤ 1 := by
  have hi := dreachable_inv h
  unfold DisruptionFlagInv at hi
  tauto

/-- Witness for C3 at the initial disruption state. -/
theorem c3_flag_guarded_mutual_exclusion_witness :
    DReachable dInitialState ∧
    (dInitialState.supplyChainActive ≤ 1 ∧
     dInitialState.qualityIssueActive ≤ 1 ∧
     dInitialState.powerOutageActive ≤ 1 ∧
     dInitialState.orderCancellationActive ≤ 1) :=
  ⟨DReachable.init, c3_flag_guarded_mutual_exclusion DReachable.init⟩

/-- The recognised shapes of a payload on the simulation-command topic
(handle_simulation_command, simutd.py lines 550-572): a command field
holding pause, resume, stop or an unrecognised string, or a payload with
no command field at all. -/
inductive SimCommandPayload where
  | pauseCommand
  | resumeCommand
  | stopCommand
  | unknownCommand
  | missingCommandField
deriving DecidableEq, Repr

/-- The duration field of a direct strategy command payload: absent,
present but not parseable as a float (the code logs a warning and keeps
the default duration), or a valid number of days. -/
inductive DurationField where
  | absent
  | invalid
  | valid (days : ℚ)
deriving DecidableEq, Repr

/-- A payload on a direct strategy topic factory/command/NAME
(handle_direct_strategy_command, simutd.py lines 490-548).  trigger none
stands for a payload whose trigger field is missing or not a boolean. -/
structure DirectStrategyPayload where
  trigger : Option Bool
  duration : DurationField
deriving DecidableEq, Repr

/-- An inbound MQTT message after topic routing by on_mqtt_message
(simutd.py lines 470-488): an undecodable body (json.loads raises), a
payload on the strategy-command topic factory/command/strategy carrying an
index-addressed activation, a payload on the simulation-command topic, or
a payload on a direct per-strategy topic whose trailing name segment either
matches a strategy enum name or not. -/
inductive InboundMessage where
  | undecodable
  | strategyTopic (strategyIndex : ℕ) (activate : Bool)
  | simulationTopic (payload : SimCommandPayload)
  | directTopic (name : Option AdaptationStrategy)
      (payload : DirectStrategyPayload)
deriving DecidableEq, Repr

/-- How the ingress disposed of a message: handled (state possibly
changed), stop requested (the code calls sys.exit(0)), warning or error
logged and the message ignored, a JSON decode error printed and the
message ignored, or an unexpected exception caught by the blanket except
of on_mqtt_message and printed, with the message ignored. -/
inductive IngressOutcome where
  | handled
  | stopRequested
  | warningLogged
  | errorLogged
  | decodeErrorPrinted
  | exceptionPrinted
deriving DecidableEq, Repr

/-- The position of a strategy in list(AdaptationStrategy), as computed by
handle_direct_strategy_command before calling modify_strategy. -/
def strategyIndex (strategy : AdaptationStrategy) : ℕ :=
  strategyList.findIdx (fun x => decide (x = strategy))

/-- The command ingress: on_mqtt_message (simutd.py lines 470-488) composed
with handle_simulation_command (lines 550-572) and
handle_direct_strategy_command (lines 490-548).  The branch for the topic
factory/command/strategy calls self.handle_strategy_command, but no method
of that name is defined anywhere in the class, so the call raises
AttributeError at runtime; the blanket try/except of on_mqtt_message
catches it and prints an error, dropping the message with the state
unchanged. -/
def onMqttMessage (now : ℚ) (msg : InboundMessage) (s : FactoryState) :
    FactoryState × IngressOutcome :=
  match msg with
  | InboundMessage.undecodable => (s, IngressOutcome.decodeErrorPrinted)
  | InboundMessage.strategyTopic _ _ => (s, IngressOutcome.exceptionPrinted)
  | InboundMessage.simulationTopic payload =>
      match payload with
      | SimCommandPayload.pauseCommand =>
          ({ s with paused := true }, IngressOutcome.handled)
      | SimCommandPayload.resumeCommand =>
          ({ s with paused := false }, IngressOutcome.handled)
      | SimCommandPayload.stopCommand => (s, IngressOutcome.stopRequested)
      | SimCommandPayload.unknownCommand => (s, IngressOutcome.warningLogged)
      | SimCommandPayload.missingCommandField =>
          (s, IngressOutcome.errorLogged)
  | InboundMessage.directTopic none payload =>
      match payload.trigger with
      | some _ => (s, IngressOutcome.errorLogged)
      | none => (s, IngressOutcome.warningLogged)
  | InboundMessage.directTopic (some strategy) payload =>
      match payload.trigger with
      | some true =>
          let customDuration : Option ℚ :=
            match payload.duration with
            | DurationField.valid days =>
                some ((pyInt (days * 24 * 60) : ℤ) : ℚ)
            | _ => none
          ((modifyStrategy now (strategyIndex strategy) true
              customDuration s).1, IngressOutcome.handled)
      | some false =>
          ((modifyStrategy now (strategyIndex strategy) false none s).1,
            IngressOutcome.handled)
      | none => (s, IngressOutcome.warningLogged)

/-- C9: the ingress accepts pause/resume/stop and by-name strategy
commands, logs and ignores unknown commands with the state unchanged, and
prints and ignores undecodable payloads with the state unchanged — but
every payload on the index-addressed strategy-command topic
factory/command/strategy, well-formed or not, is dropped with an exception
printed and the state unchanged, because on_mqtt_message dispatches it to
a handler method that is not defined anywhere in the class (simutd.py line
478): index-addressed strategy commands are never accepted. -/
theorem c9_ingress_dispatch :
    (∀ (now : ℚ) (s : FactoryState) (strategyIdx : ℕ) (activate : Bool),
        onMqttMessage now
            (InboundMessage.strategyTopic strategyIdx activate) s =
          (s, IngressOutcome.exceptionPrinted)) ∧
    (∀ (now : ℚ) (s : FactoryState),
        onMqttMessage now
            (InboundMessage.simulationTopic SimCommandPayload.pauseCommand)
            s =
          ({ s with paused := true }, IngressOutcome.handled) ∧
        onMqttMessage now
            (InboundMessage.simulationTopic SimCommandPayload.resumeCommand)
            s =
          ({ s with paused := false }, IngressOutcome.handled) ∧
        onMqttMessage now
            (InboundMessage.simulationTopic SimCommandPayload.stopCommand)
            s =
          (s, IngressOutcome.stopRequested) ∧
        onMqttMessage now
            (InboundMessage.simulationTopic SimCommandPayload.unknownCommand)
            s =
          (s, IngressOutcome.warningLogged) ∧
        onMqttMessage now InboundMessage.undecodable s =
          (s, IngressOutcome.decodeErrorPrinted)) :=
  ⟨fun _ _ _ _ => rfl, fun _ _ => ⟨rfl, rfl, rfl, rfl, rfl⟩⟩

end FactorySim
